import Mathlib

/-!
Shallow embedding of the brave-search MCP server (`dist/index.js`).

Timestamps (`Date.now()`) are modelled as `Int` milliseconds; JSON numbers for
counters and counts are `Nat`/`Int`.  Absent JSON fields are `Option`; the JS
falsy-or `x || d` (which also replaces the empty string) and the nullish
coalescing `x ?? d` (which does not) are modelled separately.  Upstream HTTP
is an oracle (`Env`) mapping each request shape to a response; `Date.now()` is
an oracle from the index of the `checkRateLimit` call to a timestamp.  The
mutable module state (`requestCount`, plus a log of outbound requests) is
threaded explicitly; exceptions are `Except String`.
-/

deriving instance DecidableEq for Except

namespace BraveSearch

/-- JS `x || d` for an optional string: `undefined`/`null` and `''` are falsy. -/
def jsOrOpt (x : Option String) (d : String) : String :=
  match x with
  | none => d
  | some s => if s = "" then d else s

/-- JS `s || d` for a present string: only `''` is falsy. -/
def jsOrStr (s : String) (d : String) : String :=
  if s = "" then d else s

/-- JS `Math.min(a, b)` on integral numbers. -/
def jsMin (a b : Int) : Int :=
  if a ≤ b then a else b

/-- `RATE_LIMIT` constant from the source. -/
structure RateLimitConfig where
  perSecond : Nat
  perMonth : Nat
deriving DecidableEq

def RATE_LIMIT : RateLimitConfig := { perSecond := 1, perMonth := 15000 }

/-- The mutable `requestCount` object: `{second, month, lastReset}`. -/
structure RequestCount where
  second : Nat
  month : Nat
  lastReset : Int
deriving DecidableEq

/-- The window-reset prefix of `checkRateLimit`:
`if (now - requestCount.lastReset > 1000) { second = 0; lastReset = now; }`. -/
def resetWindow (now : Int) (rc : RequestCount) : RequestCount :=
  if 1000 < now - rc.lastReset then { rc with second := 0, lastReset := now } else rc

/-- `checkRateLimit()`: after the window reset, throw `'Rate limit exceeded'`
when `second >= RATE_LIMIT.perSecond || month >= RATE_LIMIT.perMonth`,
otherwise increment both counters.  Returns the outcome together with the
state of `requestCount` after the call (mutations before the throw persist). -/
def checkRateLimit (now : Int) (rc0 : RequestCount) : Except String Unit × RequestCount :=
  let rc := resetWindow now rc0
  if RATE_LIMIT.perSecond ≤ rc.second ∨ RATE_LIMIT.perMonth ≤ rc.month then
    (Except.error "Rate limit exceeded", rc)
  else
    (Except.ok (), { rc with second := rc.second + 1, month := rc.month + 1 })

/-- Raw web-search JSON result entry (`result.title` etc. may be absent). -/
structure RawWebResult where
  title : Option String
  description : Option String
  url : Option String
deriving DecidableEq

/-- `data.web` object (its `results` array may be absent). -/
structure WebResultsObj where
  results : Option (List RawWebResult)
deriving DecidableEq

/-- Web-search response JSON (`data.web` may be absent). -/
structure WebData where
  web : Option WebResultsObj
deriving DecidableEq

/-- Normalised `WebResult` record built by `performWebSearch`. -/
structure WebResult where
  title : String
  description : String
  url : String
deriving DecidableEq

/-- `{title: result.title || '', description: result.description || '', url: result.url || ''}`. -/
def normalizeWebResult (r : RawWebResult) : WebResult :=
  { title := jsOrOpt r.title ""
    description := jsOrOpt r.description ""
    url := jsOrOpt r.url "" }

/-- `(data.web?.results || []).map(normalize)`. -/
def webResultsOf (d : WebData) : List WebResult :=
  ((d.web.bind WebResultsObj.results).getD []).map normalizeWebResult

/-- One formatted block: `Title: ...\nDescription: ...\nURL: ...`. -/
def webResultLine (r : WebResult) : String :=
  "Title: " ++ r.title ++ "\nDescription: " ++ r.description ++ "\nURL: " ++ r.url

/-- The full text returned by a successful web search: blocks joined by `'\n\n'`. -/
def webSearchText (d : WebData) : String :=
  String.intercalate "\n\n" ((webResultsOf d).map webResultLine)

/-- One entry of `webData.locations?.results` (its `id` may be absent). -/
structure LocationResult where
  id : Option String
deriving DecidableEq

/-- `webData.locations` object. -/
structure LocationsObj where
  results : Option (List LocationResult)
deriving DecidableEq

/-- Locations-filtered web-search response JSON. -/
structure LocWebData where
  locations : Option LocationsObj
deriving DecidableEq

/-- `webData.locations?.results?.filter(r => r.id != null).map(r => r.id) || []`. -/
def locationIdsOf (d : LocWebData) : List String :=
  ((d.locations.bind LocationsObj.results).getD []).filterMap LocationResult.id

/-- POI `rating` object.  The JSON number `ratingValue` is modelled by its
rendered decimal string (only its interpolation into text matters here);
`ratingCount` is a natural number. -/
structure Rating where
  ratingValue : Option String
  ratingCount : Option Nat
deriving DecidableEq

/-- POI `address` object. -/
structure PoiAddress where
  streetAddress : Option String
  addressLocality : Option String
  addressRegion : Option String
  postalCode : Option String
deriving DecidableEq

/-- A place-of-interest record from the POIs endpoint.  `id` and `name` are
required by the upstream data model; the rest may be absent. -/
structure Poi where
  id : String
  name : String
  address : Option PoiAddress
  phone : Option String
  rating : Option Rating
  openingHours : Option (List String)
  priceRange : Option String
deriving DecidableEq

/-- POIs endpoint response (`poisData.results` may be absent). -/
structure PoisResponse where
  results : Option (List Poi)
deriving DecidableEq

/-- Descriptions endpoint response: `descriptions` maps ids to text,
modelled as an association list. -/
structure DescriptionsData where
  descriptions : List (String × String)
deriving DecidableEq

/-- The address line: the four components, `?? ''` each, filtered of empty
parts, comma-joined, `|| 'N/A'`. -/
def addressOf (poi : Poi) : String :=
  jsOrStr (String.intercalate ", "
    (([(poi.address.bind PoiAddress.streetAddress).getD "",
       (poi.address.bind PoiAddress.addressLocality).getD "",
       (poi.address.bind PoiAddress.addressRegion).getD "",
       (poi.address.bind PoiAddress.postalCode).getD ""]).filter (fun p => p != ""))) "N/A"

/-- `poi.rating?.ratingValue ?? 'N/A'` (nullish, so an empty string stays). -/
def ratingValueOf (poi : Poi) : String :=
  (poi.rating.bind Rating.ratingValue).getD "N/A"

/-- `poi.rating?.ratingCount ?? 0`, rendered. -/
def ratingCountOf (poi : Poi) : String :=
  toString ((poi.rating.bind Rating.ratingCount).getD 0)

/-- `(poi.openingHours || []).join(', ') || 'N/A'`. -/
def hoursOf (poi : Poi) : String :=
  jsOrStr (String.intercalate ", " (poi.openingHours.getD [])) "N/A"

/-- `descData.descriptions[poi.id] || 'No description available'`. -/
def descriptionOf (dd : DescriptionsData) (poi : Poi) : String :=
  jsOrOpt (List.lookup poi.id dd.descriptions) "No description available"

/-- One POI block of `formatLocalResults` (the template literal ends with a
newline).  Written right-associated so that after the optional fields are
resolved the literal tail is a closed string. -/
def formatPoiBlock (dd : DescriptionsData) (poi : Poi) : String :=
  "Name: " ++ (poi.name ++
  ("\nAddress: " ++ (addressOf poi ++
  ("\nPhone: " ++ (jsOrOpt poi.phone "N/A" ++
  ("\nRating: " ++ (ratingValueOf poi ++
  (" (" ++ (ratingCountOf poi ++
  (" reviews)\nPrice Range: " ++ (jsOrOpt poi.priceRange "N/A" ++
  ("\nHours: " ++ (hoursOf poi ++
  ("\nDescription: " ++ (descriptionOf dd poi ++ "\n")))))))))))))))

/-- `formatLocalResults`: blocks joined by `'\n---\n'`, `|| 'No local results found'`. -/
def formatLocalResults (poisData : PoisResponse) (dd : DescriptionsData) : String :=
  jsOrStr (String.intercalate "\n---\n"
    ((poisData.results.getD []).map (formatPoiBlock dd))) "No local results found"

/-- Outcome of one `fetch`: a non-2xx HTTP response or parsed JSON. -/
inductive FetchOutcome (α : Type) where
  | httpError (status : Nat) (statusText : String) (body : String)
  | ok (data : α)
deriving DecidableEq

/-- The outbound requests the client can issue (query parameters as set
before `toString`; `count` is already clamped where the code clamps it). -/
inductive UpstreamReq where
  | web (q : String) (count : Int) (offset : Int)
  | locationsWeb (q : String) (count : Int)
  | pois (ids : List String)
  | descriptions (ids : List String)
deriving DecidableEq

/-- The environment: `Date.now()` as a function of the index of the
`checkRateLimit` call, and one response oracle per upstream endpoint. -/
structure Env where
  now : Nat → Int
  web : String → Int → Int → FetchOutcome WebData
  locWeb : String → Int → FetchOutcome LocWebData
  pois : List String → FetchOutcome PoisResponse
  descriptions : List String → FetchOutcome DescriptionsData

/-- Threaded mutable state: the rate counters, the clock index, and the log
of outbound requests issued so far. -/
structure St where
  rc : RequestCount
  tick : Nat
  log : List UpstreamReq
deriving DecidableEq

/-- `checkRateLimit()` acting on the threaded state. -/
def checkRateLimitSt (env : Env) (s : St) : Except String Unit × St :=
  ((checkRateLimit (env.now s.tick) s.rc).1,
   { s with rc := (checkRateLimit (env.now s.tick) s.rc).2, tick := s.tick + 1 })

/-- The message of the error thrown on a non-2xx upstream response. -/
def braveApiError (status : Nat) (statusText : String) (body : String) : String :=
  "Brave API error: " ++ toString status ++ " " ++ statusText ++ "\n" ++ body

/-- `performWebSearch(query, count = 10, offset = 0)`. -/
def performWebSearch (env : Env) (query : String) (count : Int) (offset : Int)
    (s : St) : Except String String × St :=
  match checkRateLimitSt env s with
  | (Except.error e, s1) => (Except.error e, s1)
  | (Except.ok _, s1) =>
    match env.web query (jsMin count 20) offset with
    | FetchOutcome.httpError status statusText body =>
      (Except.error (braveApiError status statusText body),
       { s1 with log := s1.log ++ [UpstreamReq.web query (jsMin count 20) offset] })
    | FetchOutcome.ok data =>
      (Except.ok (webSearchText data),
       { s1 with log := s1.log ++ [UpstreamReq.web query (jsMin count 20) offset] })

/-- `getPoisData(ids)`; `ids.filter(Boolean)` drops empty strings. -/
def getPoisData (env : Env) (ids : List String) (s : St) :
    Except String PoisResponse × St :=
  match checkRateLimitSt env s with
  | (Except.error e, s1) => (Except.error e, s1)
  | (Except.ok _, s1) =>
    match env.pois (ids.filter (fun i => i != "")) with
    | FetchOutcome.httpError status statusText body =>
      (Except.error (braveApiError status statusText body),
       { s1 with log := s1.log ++ [UpstreamReq.pois (ids.filter (fun i => i != ""))] })
    | FetchOutcome.ok data =>
      (Except.ok data,
       { s1 with log := s1.log ++ [UpstreamReq.pois (ids.filter (fun i => i != ""))] })

/-- `getDescriptionsData(ids)`. -/
def getDescriptionsData (env : Env) (ids : List String) (s : St) :
    Except String DescriptionsData × St :=
  match checkRateLimitSt env s with
  | (Except.error e, s1) => (Except.error e, s1)
  | (Except.ok _, s1) =>
    match env.descriptions (ids.filter (fun i => i != "")) with
    | FetchOutcome.httpError status statusText body =>
      (Except.error (braveApiError status statusText body),
       { s1 with log := s1.log ++ [UpstreamReq.descriptions (ids.filter (fun i => i != ""))] })
    | FetchOutcome.ok data =>
      (Except.ok data,
       { s1 with log := s1.log ++ [UpstreamReq.descriptions (ids.filter (fun i => i != ""))] })

/-- `performLocalSearch(query, count = 5)`.  The two POI-data reads are
issued under `Promise.all`; the event loop runs their synchronous prefixes
(in particular their `checkRateLimit` calls) in array order, modelled here
as sequential composition. -/
def performLocalSearch (env : Env) (query : String) (count : Int) (s : St) :
    Except String String × St :=
  match checkRateLimitSt env s with
  | (Except.error e, s1) => (Except.error e, s1)
  | (Except.ok _, s1) =>
    match env.locWeb query (jsMin count 20) with
    | FetchOutcome.httpError status statusText body =>
      (Except.error (braveApiError status statusText body),
       { s1 with log := s1.log ++ [UpstreamReq.locationsWeb query (jsMin count 20)] })
    | FetchOutcome.ok webData =>
      if (locationIdsOf webData).length = 0 then
        -- Fallback to web search
        performWebSearch env query count 0
          { s1 with log := s1.log ++ [UpstreamReq.locationsWeb query (jsMin count 20)] }
      else
        match getPoisData env (locationIdsOf webData)
            { s1 with log := s1.log ++ [UpstreamReq.locationsWeb query (jsMin count 20)] } with
        | (Except.error e, s3) => (Except.error e, s3)
        | (Except.ok poisData, s3) =>
          match getDescriptionsData env (locationIdsOf webData) s3 with
          | (Except.error e, s4) => (Except.error e, s4)
          | (Except.ok descData, s4) => (Except.ok (formatLocalResults poisData descData), s4)

/-- A JS value appearing in a tool-call arguments object. -/
inductive JVal where
  | str (s : String)
  | num (n : Int)
  | other
deriving DecidableEq

/-- A tool-call arguments object, as key/value pairs. -/
abbrev ArgsObj := List (String × JVal)

/-- `isBraveWebSearchArgs`: `args` is an object with a string `query`. -/
def isBraveWebSearchArgs (args : ArgsObj) : Bool :=
  match List.lookup "query" args with
  | some (JVal.str _) => true
  | _ => false

/-- `isBraveLocalSearchArgs` (textually the same check). -/
def isBraveLocalSearchArgs (args : ArgsObj) : Bool :=
  match List.lookup "query" args with
  | some (JVal.str _) => true
  | _ => false

/-- `args.query` (only read after the type guard has passed). -/
def queryOf (args : ArgsObj) : String :=
  match List.lookup "query" args with
  | some (JVal.str s) => s
  | _ => ""

/-- `const {query, count = d} = args`: the default applies only when `count`
is `undefined`.  A `count` of non-number type would flow into JS numeric
coercion and is outside this model. -/
def countOf (args : ArgsObj) (d : Int) : Int :=
  match List.lookup "count" args with
  | some (JVal.num n) => n
  | _ => d

/-- The uniform tool-call response envelope. -/
structure ToolEnvelope where
  text : String
  isError : Bool
deriving DecidableEq

/-- The `CallToolRequestSchema` handler: try/catch around argument checks and
dispatch; every thrown message is wrapped as `Error: <message>` with
`isError: true`, an unknown tool is reported in-band, success wraps the text. -/
def handleCallTool (env : Env) (toolName : String) (args : Option ArgsObj)
    (s : St) : ToolEnvelope × St :=
  match args with
  | none => ({ text := "Error: " ++ "No arguments provided", isError := true }, s)
  | some a =>
    if toolName = "brave_web_search" then
      if isBraveWebSearchArgs a then
        match performWebSearch env (queryOf a) (countOf a 10) 0 s with
        | (Except.ok t, s1) => ({ text := t, isError := false }, s1)
        | (Except.error e, s1) => ({ text := "Error: " ++ e, isError := true }, s1)
      else ({ text := "Error: " ++ "Invalid arguments for brave_web_search", isError := true }, s)
    else if toolName = "brave_local_search" then
      if isBraveLocalSearchArgs a then
        match performLocalSearch env (queryOf a) (countOf a 5) s with
        | (Except.ok t, s1) => ({ text := t, isError := false }, s1)
        | (Except.error e, s1) => ({ text := "Error: " ++ e, isError := true }, s1)
      else ({ text := "Error: " ++ "Invalid arguments for brave_local_search", isError := true }, s)
    else ({ text := "Unknown tool: " ++ toolName, isError := true }, s)

/-- The hardcoded fallback credential from the source. -/
def defaultBraveApiKey : String := "BSAPvn4j_7Yc1vqP6mBse4_yZRWA2p4"

/-- `process.env.BRAVE_API_KEY || "BSAP..."` (`||`, so the empty string also
selects the fallback). -/
def braveApiKeyOf (envVar : Option String) : String :=
  jsOrOpt envVar defaultBraveApiKey

/-- The startup guard `if (!BRAVE_API_KEY) { ...; process.exit(1) }` as a
predicate: `true` iff the process would exit for lack of a credential. -/
def startupExitsForMissingKey (envVar : Option String) : Bool :=
  braveApiKeyOf envVar == ""

/-- A sequence of `checkRateLimit` calls at the given timestamps, returning
the final `requestCount` state. -/
def runCalls (times : List Int) (rc : RequestCount) : RequestCount :=
  times.foldl (fun r t => (checkRateLimit t r).2) rc

/-! Concrete environments and states used by the witnesses. -/

def sEmpty : St := { rc := { second := 0, month := 0, lastReset := 0 }, tick := 0, log := [] }

/-- Initial state in which one call already happened in the current window. -/
def sBusy : St := { rc := { second := 1, month := 0, lastReset := 0 }, tick := 0, log := [] }

/-- Oracle: clock frozen at 0; locations search finds one id; web search finds
one fully populated result. -/
def envOneLoc : Env :=
  { now := fun _ => 0
    web := fun _ _ _ => FetchOutcome.ok
      { web := some { results := some [{ title := some "T", description := some "D", url := some "U" }] } }
    locWeb := fun _ _ => FetchOutcome.ok
      { locations := some { results := some [{ id := some "loc1" }] } }
    pois := fun _ => FetchOutcome.ok { results := some [] }
    descriptions := fun _ => FetchOutcome.ok { descriptions := [] } }

/-- Oracle: the clock advances 2000ms per `checkRateLimit` call; the
locations search finds no ids; web search finds one result. -/
def envNoLoc : Env :=
  { now := fun i => 2000 * Int.ofNat i
    web := fun _ _ _ => FetchOutcome.ok
      { web := some { results := some [{ title := some "T", description := some "D", url := some "U" }] } }
    locWeb := fun _ _ => FetchOutcome.ok
      { locations := some { results := some [] } }
    pois := fun _ => FetchOutcome.ok { results := some [] }
    descriptions := fun _ => FetchOutcome.ok { descriptions := [] } }

/-! Helper lemmas. -/

theorem append_ne_empty_left (a b : String) (h : a ≠ "") : a ++ b ≠ "" := by
  intro hab
  apply h
  have hd : a.data ++ b.data = [] := by
    have hc := congrArg String.data hab
    simpa using hc
  have ha : a.data = [] := (List.append_eq_nil.mp hd).1
  cases a
  simp_all [String.ext_iff]

theorem jsOrOpt_some_empty (s : String) : jsOrOpt (some s) "" = s := by
  show (if s = "" then "" else s) = s
  split
  · exact Eq.symm (by assumption)
  · rfl

theorem jsOrStr_of_ne (s d : String) (h : s ≠ "") : jsOrStr s d = s := by
  unfold jsOrStr
  rw [if_neg h]

theorem resetWindow_of_within (now : Int) (rc : RequestCount)
    (h : now - rc.lastReset ≤ 1000) : resetWindow now rc = rc := by
  unfold resetWindow
  rw [if_neg (by omega)]

theorem resetWindow_of_beyond (now : Int) (rc : RequestCount)
    (h : 1000 < now - rc.lastReset) :
    resetWindow now rc = { rc with second := 0, lastReset := now } := by
  unfold resetWindow
  rw [if_pos h]

theorem resetWindow_month (now : Int) (rc : RequestCount) :
    (resetWindow now rc).month = rc.month := by
  unfold resetWindow
  split <;> rfl

theorem checkRateLimit_def (now : Int) (rc0 : RequestCount) :
    checkRateLimit now rc0 =
      if 1 ≤ (resetWindow now rc0).second ∨ 15000 ≤ (resetWindow now rc0).month then
        (Except.error "Rate limit exceeded", resetWindow now rc0)
      else
        (Except.ok (), { resetWindow now rc0 with
          second := (resetWindow now rc0).second + 1,
          month := (resetWindow now rc0).month + 1 }) := rfl

theorem checkRateLimit_blocked (now : Int) (rc : RequestCount)
    (h : 1 ≤ (resetWindow now rc).second ∨ 15000 ≤ (resetWindow now rc).month) :
    checkRateLimit now rc = (Except.error "Rate limit exceeded", resetWindow now rc) := by
  rw [checkRateLimit_def, if_pos h]

theorem checkRateLimit_not_blocked (now : Int) (rc : RequestCount)
    (h : ¬(1 ≤ (resetWindow now rc).second ∨ 15000 ≤ (resetWindow now rc).month)) :
    checkRateLimit now rc = (Except.ok (), { resetWindow now rc with
      second := (resetWindow now rc).second + 1,
      month := (resetWindow now rc).month + 1 }) := by
  rw [checkRateLimit_def, if_neg h]

/-! Claims. -/

/-- Claim C2 counterexample: the claim says that once *at least* 1000ms have
elapsed since the last reset a subsequent call succeeds (for every counter
state).  At exactly 1000ms elapsed (`now - lastReset = 1000 ≥ 1000`) the
reset condition `now - lastReset > 1000` is false and the call fails; and
even 5000ms after the reset a call fails when the monthly counter is at its
limit. -/
theorem claim_C2_counterexample :
    ((1000 : Int) - (0 : Int) ≥ 1000 ∧
      (checkRateLimit 1000 { second := 1, month := 0, lastReset := 0 }).1 =
        Except.error "Rate limit exceeded") ∧
    ((5000 : Int) - (0 : Int) ≥ 1000 ∧
      (checkRateLimit 5000 { second := 0, month := 15000, lastReset := 0 }).1 =
        Except.error "Rate limit exceeded") :=
  ⟨⟨by decide, by decide⟩, ⟨by decide, by decide⟩⟩

/-- Claim C2 (amended): a second call within the same 1-second window
(elapsed time ≤ 1000ms) fails with `Rate limit exceeded`; once *strictly
more than* 1000ms have elapsed since the last reset *and the per-month
counter is below 15000*, a subsequent call succeeds, zeroing the per-second
counter and updating the reset timestamp before the threshold check (so the
final per-second counter is 1 and `lastReset = now`); on success the
per-month counter is incremented and the per-second counter is the
post-reset value plus one. -/
theorem claim_C2 (now : Int) (rc : RequestCount) :
    (1 ≤ rc.second → now - rc.lastReset ≤ 1000 →
      (checkRateLimit now rc).1 = Except.error "Rate limit exceeded") ∧
    (1000 < now - rc.lastReset → rc.month < 15000 →
      checkRateLimit now rc =
        (Except.ok (), { second := 1, month := rc.month + 1, lastReset := now })) ∧
    (∀ u, (checkRateLimit now rc).1 = Except.ok u →
      (checkRateLimit now rc).2.month = rc.month + 1 ∧
      (checkRateLimit now rc).2.second = (resetWindow now rc).second + 1) := by
  refine ⟨?_, ?_, ?_⟩
  · intro hs hw
    have hr := resetWindow_of_within now rc hw
    rw [checkRateLimit_blocked now rc (Or.inl (by rw [hr]; exact hs))]
  · intro hw hm
    have hr := resetWindow_of_beyond now rc hw
    have hc : ¬(1 ≤ (resetWindow now rc).second ∨ 15000 ≤ (resetWindow now rc).month) := by
      rw [hr]
      simp
      omega
    rw [checkRateLimit_not_blocked now rc hc, hr]
  · intro u hok
    rcases Classical.em
        (1 ≤ (resetWindow now rc).second ∨ 15000 ≤ (resetWindow now rc).month) with hc | hc
    · rw [checkRateLimit_blocked now rc hc] at hok
      exact absurd hok (by simp)
    · rw [checkRateLimit_not_blocked now rc hc]
      simp [resetWindow_month]

/-- Witness for claim C2 at concrete inputs. -/
theorem claim_C2_witness :
    (checkRateLimit 500 { second := 1, month := 3, lastReset := 0 }).1 =
      Except.error "Rate limit exceeded" ∧
    checkRateLimit 1500 { second := 1, month := 3, lastReset := 0 } =
      (Except.ok (), { second := 1, month := 4, lastReset := 1500 }) ∧
    ((checkRateLimit 1500 { second := 1, month := 3, lastReset := 0 }).2.month = 3 + 1 ∧
     (checkRateLimit 1500 { second := 1, month := 3, lastReset := 0 }).2.second =
       (resetWindow 1500 { second := 1, month := 3, lastReset := 0 }).second + 1) :=
  ⟨(claim_C2 500 { second := 1, month := 3, lastReset := 0 }).1 (by decide) (by decide),
   (claim_C2 1500 { second := 1, month := 3, lastReset := 0 }).2.1 (by decide) (by decide),
   (claim_C2 1500 { second := 1, month := 3, lastReset := 0 }).2.2 () (by decide)⟩

theorem month_mono_step (t : Int) (r : RequestCount) :
    r.month ≤ (checkRateLimit t r).2.month := by
  rw [checkRateLimit_def]
  split
  · simp [resetWindow_month]
  · simp [resetWindow_month]

theorem month_mono_runCalls (times : List Int) (rc : RequestCount) :
    rc.month ≤ (runCalls times rc).month := by
  induction times generalizing rc with
  | nil => exact le_refl _
  | cons t ts ih =>
    calc rc.month ≤ (checkRateLimit t rc).2.month := month_mono_step t rc
      _ ≤ (runCalls ts (checkRateLimit t rc).2).month := ih _
      _ = (runCalls (t :: ts) rc).month := rfl

/-- Claim C9: the per-month counter is monotonically non-decreasing over
every sequence of `checkRateLimit` calls (no call resets or decrements it),
so once it has reached 15000, after any further sequence of calls the next
call still fails with `Rate limit exceeded`. -/
theorem claim_C9 (times : List Int) (rc : RequestCount) (now : Int) :
    rc.month ≤ (runCalls times rc).month ∧
    (15000 ≤ rc.month →
      (checkRateLimit now (runCalls times rc)).1 = Except.error "Rate limit exceeded") := by
  refine ⟨month_mono_runCalls times rc, fun h => ?_⟩
  have hm : 15000 ≤ (resetWindow now (runCalls times rc)).month := by
    rw [resetWindow_month]
    exact le_trans h (month_mono_runCalls times rc)
  rw [checkRateLimit_blocked _ _ (Or.inr hm)]

/-- Witness for claim C9 at concrete inputs. -/
theorem claim_C9_witness :
    ({ second := 0, month := 15000, lastReset := 0 } : RequestCount).month ≤
      (runCalls [0, 500] { second := 0, month := 15000, lastReset := 0 }).month ∧
    (checkRateLimit 700 (runCalls [0, 500] { second := 0, month := 15000, lastReset := 0 })).1 =
      Except.error "Rate limit exceeded" := by
  have h := claim_C9 [0, 500] { second := 0, month := 15000, lastReset := 0 } 700
  exact ⟨h.1, h.2 (by decide)⟩

/-- Claim C8: for every call-tool request whose tool name is neither
`brave_web_search` nor `brave_local_search` but which supplies an arguments
object, the handler returns (rather than throws) a failure envelope whose
text is exactly `Unknown tool: ` followed by the supplied name, leaving the
state untouched. -/
theorem claim_C8 (env : Env) (s : St) (toolName : String) (a : ArgsObj)
    (h1 : toolName ≠ "brave_web_search") (h2 : toolName ≠ "brave_local_search") :
    handleCallTool env toolName (some a) s =
      ({ text := "Unknown tool: " ++ toolName, isError := true }, s) := by
  simp only [handleCallTool]
  rw [if_neg h1, if_neg h2]

/-- Witness for claim C8 at concrete inputs. -/
theorem claim_C8_witness :
    handleCallTool envOneLoc "frob" (some []) sEmpty =
      ({ text := "Unknown tool: frob", isError := true }, sEmpty) :=
  claim_C8 envOneLoc sEmpty "frob" [] (by decide) (by decide)

/-- Claim C10: the startup branch that reports a missing API credential and
exits is unreachable: for every value of the environment variable (absent,
empty, or set) the credential resolves to a non-empty string, so the
emptiness check always passes. -/
theorem claim_C10 (envVar : Option String) :
    startupExitsForMissingKey envVar = false ∧ braveApiKeyOf envVar ≠ "" := by
  have h : braveApiKeyOf envVar ≠ "" := by
    cases envVar with
    | none => decide
    | some s =>
      show (if s = "" then defaultBraveApiKey else s) ≠ ""
      split
      · decide
      · assumption
  exact ⟨beq_eq_false_iff_ne.mpr h, h⟩

/-! Equation lemmas for the search-client operations. -/

theorem checkRateLimitSt_eq (env : Env) (s : St) :
    checkRateLimitSt env s = ((checkRateLimit (env.now s.tick) s.rc).1,
      { s with rc := (checkRateLimit (env.now s.tick) s.rc).2, tick := s.tick + 1 }) := rfl

theorem performWebSearch_check_error (env : Env) (q : String) (c o : Int) (s : St) (e : String)
    (h : (checkRateLimit (env.now s.tick) s.rc).1 = Except.error e) :
    performWebSearch env q c o s = (Except.error e,
      { s with rc := (checkRateLimit (env.now s.tick) s.rc).2, tick := s.tick + 1 }) := by
  unfold performWebSearch
  rw [checkRateLimitSt_eq, h]

theorem performWebSearch_ok (env : Env) (q : String) (c o : Int) (s : St) (wd : WebData)
    (hchk : (checkRateLimit (env.now s.tick) s.rc).1 = Except.ok ())
    (hweb : env.web q (jsMin c 20) o = FetchOutcome.ok wd) :
    performWebSearch env q c o s = (Except.ok (webSearchText wd),
      { rc := (checkRateLimit (env.now s.tick) s.rc).2, tick := s.tick + 1,
        log := s.log ++ [UpstreamReq.web q (jsMin c 20) o] }) := by
  unfold performWebSearch
  rw [checkRateLimitSt_eq, hchk, hweb]

theorem performWebSearch_httpError (env : Env) (q : String) (c o : Int) (s : St)
    (status : Nat) (statusText body : String)
    (hchk : (checkRateLimit (env.now s.tick) s.rc).1 = Except.ok ())
    (hweb : env.web q (jsMin c 20) o = FetchOutcome.httpError status statusText body) :
    performWebSearch env q c o s = (Except.error (braveApiError status statusText body),
      { rc := (checkRateLimit (env.now s.tick) s.rc).2, tick := s.tick + 1,
        log := s.log ++ [UpstreamReq.web q (jsMin c 20) o] }) := by
  unfold performWebSearch
  rw [checkRateLimitSt_eq, hchk, hweb]

theorem performWebSearch_fst_ok (env : Env) (q : String) (c o : Int) (s : St)
    (t : String) (wd : WebData)
    (hweb : env.web q (jsMin c 20) o = FetchOutcome.ok wd)
    (h : (performWebSearch env q c o s).1 = Except.ok t) : t = webSearchText wd := by
  rcases Classical.em (1 ≤ (resetWindow (env.now s.tick) s.rc).second ∨
      15000 ≤ (resetWindow (env.now s.tick) s.rc).month) with hc | hc
  · rw [performWebSearch_check_error env q c o s "Rate limit exceeded"
      (by rw [checkRateLimit_blocked _ _ hc])] at h
    exact absurd h (by simp)
  · rw [performWebSearch_ok env q c o s wd
      (by rw [checkRateLimit_not_blocked _ _ hc]) hweb] at h
    simpa using h.symm

theorem getPoisData_check_error (env : Env) (ids : List String) (s : St) (e : String)
    (h : (checkRateLimit (env.now s.tick) s.rc).1 = Except.error e) :
    getPoisData env ids s = (Except.error e,
      { s with rc := (checkRateLimit (env.now s.tick) s.rc).2, tick := s.tick + 1 }) := by
  unfold getPoisData
  rw [checkRateLimitSt_eq, h]

theorem performLocalSearch_check_error (env : Env) (q : String) (c : Int) (s : St) (e : String)
    (h : (checkRateLimit (env.now s.tick) s.rc).1 = Except.error e) :
    performLocalSearch env q c s = (Except.error e,
      { s with rc := (checkRateLimit (env.now s.tick) s.rc).2, tick := s.tick + 1 }) := by
  unfold performLocalSearch
  rw [checkRateLimitSt_eq, h]

theorem performLocalSearch_locHttpError (env : Env) (q : String) (c : Int) (s : St)
    (status : Nat) (statusText body : String)
    (hchk : (checkRateLimit (env.now s.tick) s.rc).1 = Except.ok ())
    (hlw : env.locWeb q (jsMin c 20) = FetchOutcome.httpError status statusText body) :
    performLocalSearch env q c s = (Except.error (braveApiError status statusText body),
      { rc := (checkRateLimit (env.now s.tick) s.rc).2, tick := s.tick + 1,
        log := s.log ++ [UpstreamReq.locationsWeb q (jsMin c 20)] }) := by
  unfold performLocalSearch
  rw [checkRateLimitSt_eq, hchk, hlw]

theorem performLocalSearch_fallback (env : Env) (q : String) (c : Int) (s : St) (webData : LocWebData)
    (hchk : (checkRateLimit (env.now s.tick) s.rc).1 = Except.ok ())
    (hlw : env.locWeb q (jsMin c 20) = FetchOutcome.ok webData)
    (hids : (locationIdsOf webData).length = 0) :
    performLocalSearch env q c s = performWebSearch env q c 0
      { rc := (checkRateLimit (env.now s.tick) s.rc).2, tick := s.tick + 1,
        log := s.log ++ [UpstreamReq.locationsWeb q (jsMin c 20)] } := by
  unfold performLocalSearch
  rw [checkRateLimitSt_eq, hchk, hlw]
  simp [hids]

theorem performLocalSearch_pois (env : Env) (q : String) (c : Int) (s : St) (webData : LocWebData)
    (hchk : (checkRateLimit (env.now s.tick) s.rc).1 = Except.ok ())
    (hlw : env.locWeb q (jsMin c 20) = FetchOutcome.ok webData)
    (hids : ¬(locationIdsOf webData).length = 0) :
    performLocalSearch env q c s =
      (match getPoisData env (locationIdsOf webData)
          { rc := (checkRateLimit (env.now s.tick) s.rc).2, tick := s.tick + 1,
            log := s.log ++ [UpstreamReq.locationsWeb q (jsMin c 20)] } with
       | (Except.error e, s3) => (Except.error e, s3)
       | (Except.ok poisData, s3) =>
         match getDescriptionsData env (locationIdsOf webData) s3 with
         | (Except.error e, s4) => (Except.error e, s4)
         | (Except.ok descData, s4) => (Except.ok (formatLocalResults poisData descData), s4)) := by
  unfold performLocalSearch
  rw [checkRateLimitSt_eq, hchk, hlw]
  simp [hids]

/-- Claim C1: if the two successive `checkRateLimit` calls of a local search
fall within the same 1-second window (and so no window reset intervenes),
the operation can never return a result: whenever the initial
locations-filtered web call answers at all, the operation throws
`Rate limit exceeded` (on the POI path via the nested fetch, on the empty-id
path via the fallback web search) before any formatting occurs. -/
theorem claim_C1 (env : Env) (q : String) (c : Int) (s : St)
    (h1 : env.now s.tick - s.rc.lastReset ≤ 1000)
    (h2 : env.now (s.tick + 1) - s.rc.lastReset ≤ 1000) :
    (∀ t, (performLocalSearch env q c s).1 ≠ Except.ok t) ∧
    (∀ d, env.locWeb q (jsMin c 20) = FetchOutcome.ok d →
      (performLocalSearch env q c s).1 = Except.error "Rate limit exceeded") := by
  rcases Classical.em (1 ≤ (resetWindow (env.now s.tick) s.rc).second ∨
      15000 ≤ (resetWindow (env.now s.tick) s.rc).month) with hc | hc
  · have hfail : (checkRateLimit (env.now s.tick) s.rc).1 = Except.error "Rate limit exceeded" := by
      rw [checkRateLimit_blocked _ _ hc]
    have heq := performLocalSearch_check_error env q c s "Rate limit exceeded" hfail
    refine ⟨fun t => ?_, fun d _ => ?_⟩
    · rw [heq]; simp
    · rw [heq]
  · have hok : (checkRateLimit (env.now s.tick) s.rc).1 = Except.ok () := by
      rw [checkRateLimit_not_blocked _ _ hc]
    have hr : resetWindow (env.now s.tick) s.rc = s.rc := resetWindow_of_within _ _ h1
    have hlast : ((checkRateLimit (env.now s.tick) s.rc).2).lastReset = s.rc.lastReset := by
      rw [checkRateLimit_not_blocked _ _ hc, hr]
    have hsec1 : 1 ≤ ((checkRateLimit (env.now s.tick) s.rc).2).second := by
      rw [checkRateLimit_not_blocked _ _ hc]
      simp
    have hfail2 : (checkRateLimit (env.now (s.tick + 1))
        ((checkRateLimit (env.now s.tick) s.rc).2)).1 = Except.error "Rate limit exceeded" := by
      have hwin : env.now (s.tick + 1) - ((checkRateLimit (env.now s.tick) s.rc).2).lastReset ≤ 1000 := by
        rw [hlast]; exact h2
      rw [checkRateLimit_blocked _ _ (Or.inl (by rw [resetWindow_of_within _ _ hwin]; exact hsec1))]
    cases hlw : env.locWeb q (jsMin c 20) with
    | httpError status statusText body =>
      have heq := performLocalSearch_locHttpError env q c s status statusText body hok hlw
      refine ⟨fun t => ?_, fun d hd => ?_⟩
      · rw [heq]; simp
      · exact absurd hd (by simp)
    | ok webData =>
      by_cases hids : (locationIdsOf webData).length = 0
      · have heq := performLocalSearch_fallback env q c s webData hok hlw hids
        have heq2 := performWebSearch_check_error env q c 0
          { rc := (checkRateLimit (env.now s.tick) s.rc).2, tick := s.tick + 1,
            log := s.log ++ [UpstreamReq.locationsWeb q (jsMin c 20)] }
          "Rate limit exceeded" hfail2
        refine ⟨fun t => ?_, fun d hd => ?_⟩
        · rw [heq, heq2]; simp
        · rw [heq, heq2]
      · have heq := performLocalSearch_pois env q c s webData hok hlw hids
        have heq2 := getPoisData_check_error env (locationIdsOf webData)
          { rc := (checkRateLimit (env.now s.tick) s.rc).2, tick := s.tick + 1,
            log := s.log ++ [UpstreamReq.locationsWeb q (jsMin c 20)] }
          "Rate limit exceeded" hfail2
        refine ⟨fun t => ?_, fun d hd => ?_⟩
        · rw [heq, heq2]; simp
        · rw [heq, heq2]

/-- Witness for claim C1 at concrete inputs: one location id is returned and
all calls happen at time 0. -/
theorem claim_C1_witness :
    (∀ t, (performLocalSearch envOneLoc "pizza" 5 sEmpty).1 ≠ Except.ok t) ∧
    (∀ d, envOneLoc.locWeb "pizza" (jsMin 5 20) = FetchOutcome.ok d →
      (performLocalSearch envOneLoc "pizza" 5 sEmpty).1 = Except.error "Rate limit exceeded") :=
  claim_C1 envOneLoc "pizza" 5 sEmpty (by decide) (by decide)

/-- Claim C3: when the locations-filtered call yields zero identifiers, the
local search falls back to the plain web search with the same query and
count: any text it returns is exactly the formatted web-search text of the
upstream web response — the same text a direct web-search call (from any
state) returns — with no marker of the fallback. -/
theorem claim_C3 (env : Env) (q : String) (c : Int) (s : St) (d : LocWebData) (wd : WebData)
    (hloc : env.locWeb q (jsMin c 20) = FetchOutcome.ok d)
    (hids : (locationIdsOf d).length = 0)
    (hweb : env.web q (jsMin c 20) 0 = FetchOutcome.ok wd) :
    (∀ t, (performLocalSearch env q c s).1 = Except.ok t → t = webSearchText wd) ∧
    (∀ s' t t', (performLocalSearch env q c s).1 = Except.ok t →
      (performWebSearch env q c 0 s').1 = Except.ok t' → t = t') := by
  have key : ∀ t, (performLocalSearch env q c s).1 = Except.ok t → t = webSearchText wd := by
    intro t ht
    rcases Classical.em (1 ≤ (resetWindow (env.now s.tick) s.rc).second ∨
        15000 ≤ (resetWindow (env.now s.tick) s.rc).month) with hc | hc
    · rw [performLocalSearch_check_error env q c s "Rate limit exceeded"
        (by rw [checkRateLimit_blocked _ _ hc])] at ht
      exact absurd ht (by simp)
    · rw [performLocalSearch_fallback env q c s d
        (by rw [checkRateLimit_not_blocked _ _ hc]) hloc hids] at ht
      exact performWebSearch_fst_ok env q c 0 _ t wd hweb ht
  refine ⟨key, fun s' t t' ht ht' => ?_⟩
  rw [key t ht, performWebSearch_fst_ok env q c 0 s' t' wd hweb ht']

/-- Witness for claim C3 at concrete inputs: the clock advances 2000ms per
call, the locations search finds nothing, and the fallback succeeds with the
same text as a direct web search. -/
theorem claim_C3_witness :
    "Title: T\nDescription: D\nURL: U" = webSearchText
      { web := some { results := some [{ title := some "T", description := some "D", url := some "U" }] } } ∧
    "Title: T\nDescription: D\nURL: U" = "Title: T\nDescription: D\nURL: U" :=
  ⟨(claim_C3 envNoLoc "pizza" 5 sEmpty { locations := some { results := some [] } }
      { web := some { results := some [{ title := some "T", description := some "D", url := some "U" }] } }
      (by decide) (by decide) (by decide)).1 _ (by decide),
   (claim_C3 envNoLoc "pizza" 5 sEmpty { locations := some { results := some [] } }
      { web := some { results := some [{ title := some "T", description := some "D", url := some "U" }] } }
      (by decide) (by decide) (by decide)).2 sEmpty _ _ (by decide) (by decide)⟩

theorem performWebSearch_log (env : Env) (q : String) (c o : Int) (s : St)
    (hchk : (checkRateLimit (env.now s.tick) s.rc).1 = Except.ok ()) :
    (performWebSearch env q c o s).2.log = s.log ++ [UpstreamReq.web q (jsMin c 20) o] := by
  cases hw : env.web q (jsMin c 20) o with
  | httpError status statusText body =>
    rw [performWebSearch_httpError env q c o s status statusText body hchk hw]
  | ok wd =>
    rw [performWebSearch_ok env q c o s wd hchk hw]

/-- Claim C4: for every count greater than 20, the web search places
`count = 20` (`Math.min(count, 20)`) on the outbound upstream request it
logs before sending. -/
theorem claim_C4 (env : Env) (q : String) (c o : Int) (s : St)
    (hc : 20 < c)
    (hchk : (checkRateLimit (env.now s.tick) s.rc).1 = Except.ok ()) :
    (performWebSearch env q c o s).2.log = s.log ++ [UpstreamReq.web q 20 o] := by
  have hm : jsMin c 20 = 20 := by
    unfold jsMin
    rw [if_neg (by omega)]
  rw [performWebSearch_log env q c o s hchk, hm]

/-- Witness for claim C4 at concrete inputs (count 25). -/
theorem claim_C4_witness :
    (performWebSearch envOneLoc "test" 25 7 sEmpty).2.log =
      sEmpty.log ++ [UpstreamReq.web "test" 20 7] :=
  claim_C4 envOneLoc "test" 25 7 sEmpty (by decide) (by decide)

/-- Claim C5: a successful web search returns the per-result blocks
`Title: ...\nDescription: ...\nURL: ...` joined by a blank line, with absent
upstream fields defaulting to the empty string; a single full result
`{title: T, description: D, url: U}` yields exactly
`Title: T\nDescription: D\nURL: U`. -/
theorem claim_C5 (env : Env) (q : String) (c o : Int) (s : St) (wd : WebData)
    (hchk : (checkRateLimit (env.now s.tick) s.rc).1 = Except.ok ())
    (hweb : env.web q (jsMin c 20) o = FetchOutcome.ok wd) :
    (performWebSearch env q c o s).1 = Except.ok (webSearchText wd) ∧
    (∀ t d u, webSearchText { web := some { results := some [{ title := some t, description := some d, url := some u }] } } =
      "Title: " ++ t ++ "\nDescription: " ++ d ++ "\nURL: " ++ u) ∧
    webSearchText { web := some { results := some [{ title := none, description := none, url := none }] } } =
      "Title: \nDescription: \nURL: " ∧
    (∀ t1 d1 u1 t2 d2 u2, webSearchText { web := some { results := some [{ title := some t1, description := some d1, url := some u1 }, { title := some t2, description := some d2, url := some u2 }] } } =
      ("Title: " ++ t1 ++ "\nDescription: " ++ d1 ++ "\nURL: " ++ u1) ++ "\n\n" ++
      ("Title: " ++ t2 ++ "\nDescription: " ++ d2 ++ "\nURL: " ++ u2)) := by
  refine ⟨?_, ?_, ?_, ?_⟩
  · rw [performWebSearch_ok env q c o s wd hchk hweb]
  · intro t d u
    simp [webSearchText, webResultsOf, normalizeWebResult, webResultLine, jsOrOpt_some_empty]
    rfl
  · rfl
  · intro t1 d1 u1 t2 d2 u2
    simp [webSearchText, webResultsOf, normalizeWebResult, webResultLine, jsOrOpt_some_empty]
    rfl

/-- Witness for claim C5 at concrete inputs. -/
theorem claim_C5_witness :
    (performWebSearch envOneLoc "test" 25 0 sEmpty).1 =
      Except.ok "Title: T\nDescription: D\nURL: U" :=
  (claim_C5 envOneLoc "test" 25 0 sEmpty
    { web := some { results := some [{ title := some "T", description := some "D", url := some "U" }] } }
    (by decide) (by decide)).1

/-- A POI with every optional field absent. -/
def barePoi (i n : String) : Poi :=
  { id := i, name := n, address := none, phone := none, rating := none,
    openingHours := none, priceRange := none }

/-- A POI with every field present. -/
def samplePoi : Poi :=
  { id := "id1", name := "Joes Pizza",
    address := some { streetAddress := some "1 Main St", addressLocality := some "Springfield",
                      addressRegion := some "IL", postalCode := some "62704" },
    phone := some "555-1234",
    rating := some { ratingValue := some "4.5", ratingCount := some 10 },
    openingHours := some ["Mon 9-5", "Tue 9-5"], priceRange := some "$$" }

theorem formatPoiBlock_bare (i n : String) :
    formatPoiBlock { descriptions := [] } (barePoi i n) =
      "Name: " ++ (n ++ "\nAddress: N/A\nPhone: N/A\nRating: N/A (0 reviews)\nPrice Range: N/A\nHours: N/A\nDescription: No description available\n") := by
  have ha : addressOf (barePoi i n) = "N/A" := rfl
  have hp : jsOrOpt (barePoi i n).phone "N/A" = "N/A" := rfl
  have hrv : ratingValueOf (barePoi i n) = "N/A" := rfl
  have hrc : ratingCountOf (barePoi i n) = "0" := by
    have h0 : ratingCountOf (barePoi i n) = toString (0 : Nat) := rfl
    rw [h0]; decide
  have hpr : jsOrOpt (barePoi i n).priceRange "N/A" = "N/A" := rfl
  have hh : hoursOf (barePoi i n) = "N/A" := rfl
  have hd : descriptionOf { descriptions := [] } (barePoi i n) = "No description available" := rfl
  have hnm : (barePoi i n).name = n := rfl
  unfold formatPoiBlock
  rw [ha, hp, hrv, hrc, hpr, hh, hd, hnm]
  congr 1

set_option maxRecDepth 8192 in
/-- Claim C6: the local-result formatter is a pure total function; each block
lists Name, Address, Phone, Rating, Price Range, Hours, Description in that
order with the documented defaults for absent fields (`N/A`, rating count
`0`, `No description available`), an all-absent address renders `N/A` and a
full address is the comma-joined components, blocks are separated by the
`\n---\n` delimiter line, and an empty (or absent) POI collection yields
exactly `No local results found`. -/
theorem claim_C6 (dd : DescriptionsData) (nm nm2 did did2 : String) :
    (formatLocalResults { results := some [] } dd = "No local results found") ∧
    (formatLocalResults { results := none } dd = "No local results found") ∧
    (formatLocalResults { results := some [barePoi did nm] } { descriptions := [] } =
      "Name: " ++ nm ++ "\nAddress: N/A\nPhone: N/A\nRating: N/A (0 reviews)\nPrice Range: N/A\nHours: N/A\nDescription: No description available\n") ∧
    (formatLocalResults { results := some [samplePoi] } { descriptions := [("id1", "Great pizza")] } =
      "Name: Joes Pizza\nAddress: 1 Main St, Springfield, IL, 62704\nPhone: 555-1234\nRating: 4.5 (10 reviews)\nPrice Range: $$\nHours: Mon 9-5, Tue 9-5\nDescription: Great pizza\n") ∧
    (formatLocalResults { results := some [barePoi did nm, barePoi did2 nm2] } { descriptions := [] } =
      ("Name: " ++ nm ++ "\nAddress: N/A\nPhone: N/A\nRating: N/A (0 reviews)\nPrice Range: N/A\nHours: N/A\nDescription: No description available\n") ++
      "\n---\n" ++
      ("Name: " ++ nm2 ++ "\nAddress: N/A\nPhone: N/A\nRating: N/A (0 reviews)\nPrice Range: N/A\nHours: N/A\nDescription: No description available\n")) := by
  refine ⟨rfl, rfl, ?_, by decide, ?_⟩
  · have h2 : formatLocalResults { results := some [barePoi did nm] } { descriptions := [] } =
        jsOrStr (formatPoiBlock { descriptions := [] } (barePoi did nm))
          "No local results found" := rfl
    rw [h2, formatPoiBlock_bare did nm,
      jsOrStr_of_ne _ _ (append_ne_empty_left "Name: " _ (by decide)),
      ← String.append_assoc]
  · have h2 : formatLocalResults { results := some [barePoi did nm, barePoi did2 nm2] }
        { descriptions := [] } =
        jsOrStr (formatPoiBlock { descriptions := [] } (barePoi did nm) ++ "\n---\n" ++
          formatPoiBlock { descriptions := [] } (barePoi did2 nm2))
          "No local results found" := rfl
    rw [h2, formatPoiBlock_bare did nm, formatPoiBlock_bare did2 nm2,
      jsOrStr_of_ne _ _ (append_ne_empty_left _ _ (append_ne_empty_left _ _
        (append_ne_empty_left "Name: " _ (by decide))))]
    simp only [String.append_assoc]

/-- Claim C7: the call-tool dispatch handler is total — it always returns an
envelope, never propagating an exception: a missing arguments object, a
failed argument-shape validation, and any error thrown by the search client
(rate limit or upstream) produce a failure envelope whose text is `Error: `
followed by the exception message, while a successful search produces a
success envelope wrapping the formatted text. -/
theorem claim_C7 (env : Env) (s : St) :
    (∀ nm, handleCallTool env nm none s =
      ({ text := "Error: No arguments provided", isError := true }, s)) ∧
    (∀ a, isBraveWebSearchArgs a = false →
      handleCallTool env "brave_web_search" (some a) s =
        ({ text := "Error: Invalid arguments for brave_web_search", isError := true }, s)) ∧
    (∀ a e s1, isBraveWebSearchArgs a = true →
      performWebSearch env (queryOf a) (countOf a 10) 0 s = (Except.error e, s1) →
      handleCallTool env "brave_web_search" (some a) s =
        ({ text := "Error: " ++ e, isError := true }, s1)) ∧
    (∀ a t s1, isBraveWebSearchArgs a = true →
      performWebSearch env (queryOf a) (countOf a 10) 0 s = (Except.ok t, s1) →
      handleCallTool env "brave_web_search" (some a) s =
        ({ text := t, isError := false }, s1)) ∧
    (∀ a e s1, isBraveLocalSearchArgs a = true →
      performLocalSearch env (queryOf a) (countOf a 5) s = (Except.error e, s1) →
      handleCallTool env "brave_local_search" (some a) s =
        ({ text := "Error: " ++ e, isError := true }, s1)) ∧
    (∀ a t s1, isBraveLocalSearchArgs a = true →
      performLocalSearch env (queryOf a) (countOf a 5) s = (Except.ok t, s1) →
      handleCallTool env "brave_local_search" (some a) s =
        ({ text := t, isError := false }, s1)) := by
  refine ⟨fun nm => rfl, ?_, ?_, ?_, ?_, ?_⟩
  · intro a ha
    simp [handleCallTool, ha]
  · intro a e s1 ha hp
    simp [handleCallTool, ha, hp]
  · intro a t s1 ha hp
    simp [handleCallTool, ha, hp]
  · intro a e s1 ha hp
    simp [handleCallTool, ha, hp]
  · intro a t s1 ha hp
    simp [handleCallTool, ha, hp]

/-- Witness for claim C7 at concrete inputs: a missing arguments object, an
arguments object without a `query` string, a rate-limited call, and a
successful call. -/
theorem claim_C7_witness :
    handleCallTool envOneLoc "brave_web_search" none sEmpty =
      ({ text := "Error: No arguments provided", isError := true }, sEmpty) ∧
    handleCallTool envOneLoc "brave_web_search" (some [("count", JVal.num 3)]) sEmpty =
      ({ text := "Error: Invalid arguments for brave_web_search", isError := true }, sEmpty) ∧
    handleCallTool envOneLoc "brave_web_search" (some [("query", JVal.str "x")]) sBusy =
      ({ text := "Error: Rate limit exceeded", isError := true },
       { rc := { second := 1, month := 0, lastReset := 0 }, tick := 1, log := [] }) ∧
    handleCallTool envOneLoc "brave_web_search" (some [("query", JVal.str "x")]) sEmpty =
      ({ text := "Title: T\nDescription: D\nURL: U", isError := false },
       { rc := { second := 1, month := 1, lastReset := 0 }, tick := 1,
         log := [UpstreamReq.web "x" 10 0] }) :=
  ⟨(claim_C7 envOneLoc sEmpty).1 "brave_web_search",
   (claim_C7 envOneLoc sEmpty).2.1 [("count", JVal.num 3)] (by decide),
   (claim_C7 envOneLoc sBusy).2.2.1 [("query", JVal.str "x")] "Rate limit exceeded"
     { rc := { second := 1, month := 0, lastReset := 0 }, tick := 1, log := [] }
     (by decide) (by decide),
   (claim_C7 envOneLoc sEmpty).2.2.2.1 [("query", JVal.str "x")] "Title: T\nDescription: D\nURL: U"
     { rc := { second := 1, month := 1, lastReset := 0 }, tick := 1,
       log := [UpstreamReq.web "x" 10 0] }
     (by decide) (by decide)⟩

end BraveSearch
